import Mathlib

/-!
Verification of the portfolio growth calculator core: the time-to-target
solver `calculate_years_to_target` and the year-by-year projection builder
`build_projection_table`, embedded over the real numbers.  Python's
`float("inf")` sentinel is modelled by the `TimeResult.unreachable`
constructor, and `round(x, 2)` by `round2`.
-/

namespace PortfolioGrowth

/-- Result of the solver: a finite number of years, or the sentinel meaning
the target is unreachable (the Python code returns `float("inf")`). -/
inductive TimeResult where
  | finite (years : ℝ)
  | unreachable

/-- Rounding to two decimal places, modelling Python's `round(x, 2)`. -/
noncomputable def round2 (x : ℝ) : ℝ := (round (x * 100) : ℤ) / 100

/-- Embedding of `calculate_years_to_target(current_value, target_value,
annual_rate, monthly_contribution)` from `streamlit_app.py`. -/
noncomputable def calculate_years_to_target (current_value target_value annual_rate
    monthly_contribution : ℝ) : TimeResult :=
  if current_value ≥ target_value then .finite 0
  else if annual_rate ≤ 0 then
    if monthly_contribution ≤ 0 then .unreachable
    else .finite (round2 ((target_value - current_value) / monthly_contribution / 12))
  else if monthly_contribution = 0 then
    if current_value ≤ 0 then .unreachable
    else .finite (round2 (Real.log (target_value / current_value) /
      Real.log (1 + annual_rate / 12) / 12))
  else if current_value + monthly_contribution / (annual_rate / 12) ≤ 0 then .unreachable
  else if (target_value + monthly_contribution / (annual_rate / 12)) /
      (current_value + monthly_contribution / (annual_rate / 12)) ≤ 0 then .unreachable
  else .finite (round2 (Real.log ((target_value + monthly_contribution / (annual_rate / 12)) /
    (current_value + monthly_contribution / (annual_rate / 12))) /
    Real.log (1 + annual_rate / 12) / 12))

/-- One row of the projection table built by `build_projection_table`. -/
structure ProjectionRow where
  year : ℕ
  starting_balance : ℝ
  contributions : ℝ
  growth : ℝ
  ending_balance : ℝ

/-- One iteration of the inner month loop of `build_projection_table`: the
state is `(balance, growth_this_year, contributions_this_year)`. -/
noncomputable def monthStep (monthly_rate monthly_contribution : ℝ)
    (s : ℝ × ℝ × ℝ) : ℝ × ℝ × ℝ :=
  (s.1 + s.1 * monthly_rate + monthly_contribution,
   s.2.1 + s.1 * monthly_rate,
   s.2.2 + monthly_contribution)

/-- The state after the twelve months of one simulated year, starting from
balance `balance` with the per-year accumulators reset to zero. -/
noncomputable def yearState (monthly_rate monthly_contribution balance : ℝ) : ℝ × ℝ × ℝ :=
  (monthStep monthly_rate monthly_contribution)^[12] (balance, 0, 0)

/-- The outer year loop of `build_projection_table`, producing one row per
year; `n` is the number of years still to simulate and `year` the label of
the next row. -/
noncomputable def buildRowsAux (monthly_rate monthly_contribution : ℝ) :
    ℕ → ℕ → ℝ → List ProjectionRow
  | 0, _, _ => []
  | n + 1, year, balance =>
    { year := year
      starting_balance := round2 ((yearState monthly_rate monthly_contribution balance).1 -
        (yearState monthly_rate monthly_contribution balance).2.1 -
        (yearState monthly_rate monthly_contribution balance).2.2)
      contributions := round2 (yearState monthly_rate monthly_contribution balance).2.2
      growth := round2 (yearState monthly_rate monthly_contribution balance).2.1
      ending_balance := round2 (yearState monthly_rate monthly_contribution balance).1 } ::
    buildRowsAux monthly_rate monthly_contribution n (year + 1)
      (yearState monthly_rate monthly_contribution balance).1

/-- Number of rows of the table: `int(math.ceil(years))` clamped by the empty
`range` for non-positive values, and 30 for the `float("inf")` sentinel. -/
noncomputable def totalYears : TimeResult → ℕ
  | .finite y => (⌈y⌉).toNat
  | .unreachable => 30

/-- Embedding of `build_projection_table(current_value, annual_rate,
monthly_contribution, years)` from `streamlit_app.py`. -/
noncomputable def build_projection_table (current_value annual_rate monthly_contribution : ℝ)
    (years : TimeResult) : List ProjectionRow :=
  buildRowsAux (annual_rate / 12) monthly_contribution (totalYears years) 1 current_value

/-- Helper: the already-met branch of the solver. -/
lemma calc_already_met (c t rate pmt : ℝ) (h : t ≤ c) :
    calculate_years_to_target c t rate pmt = .finite 0 := by
  unfold calculate_years_to_target
  rw [if_pos (le_of_eq rfl |>.trans h)]

/-- C5: for every input with current >= target, the solver returns 0,
regardless of the annual rate and monthly contribution; this branch is
tested before every other one. -/
theorem already_met_returns_zero (c t rate pmt : ℝ) (h : t ≤ c) :
    calculate_years_to_target c t rate pmt = .finite 0 :=
  calc_already_met c t rate pmt h

/-- Witness for C5 at the spec's example `solve(1000, 500, 0.08, 100)`. -/
theorem already_met_returns_zero_witness :
    calculate_years_to_target 1000 500 0.08 100 = .finite 0 :=
  already_met_returns_zero 1000 500 0.08 100 (by norm_num)

/-- Helper: evaluate `round2 x` once integer bounds on `x * 100 + 1/2` are known. -/
lemma round2_eval (x : ℝ) (z : ℤ) (h1 : (z : ℝ) ≤ x * 100 + 1 / 2)
    (h2 : x * 100 + 1 / 2 < z + 1) : round2 x = z / 100 := by
  unfold round2
  rw [round_eq, Int.floor_eq_iff.mpr ⟨h1, h2⟩]

/-- Helper: the zero-rate, no-contribution branch of the solver. -/
lemma calc_zero_rate_no_pmt (c t rate pmt : ℝ) (h1 : c < t) (h2 : rate ≤ 0)
    (h3 : pmt ≤ 0) : calculate_years_to_target c t rate pmt = .unreachable := by
  unfold calculate_years_to_target
  rw [if_neg (not_le.mpr h1), if_pos h2, if_pos h3]

/-- Helper: the zero-rate, positive-contribution branch of the solver. -/
lemma calc_zero_rate_pmt (c t rate pmt : ℝ) (h1 : c < t) (h2 : rate ≤ 0)
    (h3 : 0 < pmt) :
    calculate_years_to_target c t rate pmt =
      .finite (round2 ((t - c) / pmt / 12)) := by
  unfold calculate_years_to_target
  rw [if_neg (not_le.mpr h1), if_pos h2, if_neg (not_le.mpr h3)]

/-- C3: with current < target and a non-positive rate, the solver is
unreachable for non-positive contributions and otherwise returns the linear
accumulation time `(target - current) / pmt / 12` rounded to 2 decimals. -/
theorem zero_rate_branch (c t rate pmt : ℝ) (h1 : c < t) (h2 : rate ≤ 0) :
    (pmt ≤ 0 → calculate_years_to_target c t rate pmt = .unreachable) ∧
    (0 < pmt → calculate_years_to_target c t rate pmt =
      .finite (round2 ((t - c) / pmt / 12))) :=
  ⟨fun h3 => calc_zero_rate_no_pmt c t rate pmt h1 h2 h3,
   fun h3 => calc_zero_rate_pmt c t rate pmt h1 h2 h3⟩

/-- Witness for C3 at the spec's example `solve(0, 1200, 0, 100) = 1.0`. -/
theorem zero_rate_branch_witness :
    calculate_years_to_target 0 1200 0 100 = .finite 1 := by
  have h := (zero_rate_branch 0 1200 0 100 (by norm_num) le_rfl).2 (by norm_num)
  rw [h, round2_eval _ 100 (by norm_num) (by norm_num)]
  norm_num

/-- Helper: the positive-rate, zero-contribution, non-positive-principal
branch of the solver. -/
lemma calc_compound_no_principal (c t rate : ℝ) (h1 : c < t) (h2 : 0 < rate)
    (h3 : c ≤ 0) : calculate_years_to_target c t rate 0 = .unreachable := by
  unfold calculate_years_to_target
  rw [if_neg (not_le.mpr h1), if_neg (not_le.mpr h2), if_pos rfl, if_pos h3]

/-- Helper: the positive-rate, zero-contribution, positive-principal branch. -/
lemma calc_compound_principal (c t rate : ℝ) (h1 : c < t) (h2 : 0 < rate)
    (h3 : 0 < c) :
    calculate_years_to_target c t rate 0 =
      .finite (round2 (Real.log (t / c) / Real.log (1 + rate / 12) / 12)) := by
  unfold calculate_years_to_target
  rw [if_neg (not_le.mpr h1), if_neg (not_le.mpr h2), if_pos rfl,
    if_neg (not_le.mpr h3)]

/-- C4: with current < target, positive rate and zero contribution, the
solver is unreachable when the principal is non-positive, and otherwise
returns `ln(target/current) / ln(1 + rate/12) / 12` rounded to 2 decimals. -/
theorem pure_compounding_branch (c t rate : ℝ) (h1 : c < t) (h2 : 0 < rate) :
    (c ≤ 0 → calculate_years_to_target c t rate 0 = .unreachable) ∧
    (0 < c → calculate_years_to_target c t rate 0 =
      .finite (round2 (Real.log (t / c) / Real.log (1 + rate / 12) / 12))) :=
  ⟨fun h3 => calc_compound_no_principal c t rate h1 h2 h3,
   fun h3 => calc_compound_principal c t rate h1 h2 h3⟩

/-- Witness for C4 at the spec's example `solve(0, 1000, 0.08, 0)`. -/
theorem pure_compounding_branch_witness :
    calculate_years_to_target 0 1000 0.08 0 = .unreachable :=
  (pure_compounding_branch 0 1000 0.08 (by norm_num) (by norm_num)).1 le_rfl

/-- C1: with current < target, positive rate and positive contribution, the
solver forms `x = (t + pmt/r) / (c + pmt/r)` with `r = rate/12`, is
unreachable exactly when `c + pmt/r ≤ 0` or `x ≤ 0`, and otherwise returns
`ln(x) / ln(1+r) / 12` rounded to 2 decimals. -/
theorem contribution_branch (c t rate pmt : ℝ) (h1 : c < t) (h2 : 0 < rate)
    (h3 : 0 < pmt) :
    (calculate_years_to_target c t rate pmt = .unreachable ↔
      c + pmt / (rate / 12) ≤ 0 ∨
      (t + pmt / (rate / 12)) / (c + pmt / (rate / 12)) ≤ 0) ∧
    (0 < c + pmt / (rate / 12) →
      0 < (t + pmt / (rate / 12)) / (c + pmt / (rate / 12)) →
      calculate_years_to_target c t rate pmt =
        .finite (round2 (Real.log ((t + pmt / (rate / 12)) /
          (c + pmt / (rate / 12))) / Real.log (1 + rate / 12) / 12))) := by
  unfold calculate_years_to_target
  rw [if_neg (not_le.mpr h1), if_neg (not_le.mpr h2), if_neg h3.ne']
  constructor
  · constructor
    · intro h
      by_cases hd : c + pmt / (rate / 12) ≤ 0
      · exact Or.inl hd
      · rw [if_neg hd] at h
        by_cases hr : (t + pmt / (rate / 12)) / (c + pmt / (rate / 12)) ≤ 0
        · exact Or.inr hr
        · rw [if_neg hr] at h
          exact absurd h (by simp)
    · intro h
      rcases h with hd | hr
      · rw [if_pos hd]
      · by_cases hd : c + pmt / (rate / 12) ≤ 0
        · rw [if_pos hd]
        · rw [if_neg hd, if_pos hr]
  · intro hd hr
    rw [if_neg (not_le.mpr hd), if_neg (not_le.mpr hr)]

/-- Witness for C1 at `solve(1000, 2000, 0.12, 100)`, where the denominator
and ratio are both positive. -/
theorem contribution_branch_witness :
    (1000 : ℝ) < 2000 ∧ (0 : ℝ) < 0.12 ∧ (0 : ℝ) < 100 ∧
    (0 : ℝ) < 1000 + 100 / (0.12 / 12) ∧
    (0 : ℝ) < (2000 + 100 / (0.12 / 12)) / (1000 + 100 / (0.12 / 12)) ∧
    calculate_years_to_target 1000 2000 0.12 100 =
      .finite (round2 (Real.log ((2000 + 100 / (0.12 / 12)) /
        (1000 + 100 / (0.12 / 12))) / Real.log (1 + 0.12 / 12) / 12)) :=
  ⟨by norm_num, by norm_num, by norm_num, by norm_num, by norm_num,
   (contribution_branch 1000 2000 0.12 100 (by norm_num) (by norm_num)
     (by norm_num)).2 (by norm_num) (by norm_num)⟩

/-- Helper: `buildRowsAux` always produces exactly `n` rows. -/
lemma buildRowsAux_length (mr mc : ℝ) (n : ℕ) : ∀ year bal,
    (buildRowsAux mr mc n year bal).length = n := by
  induction n with
  | zero => intro year bal; rfl
  | succ n ih => intro year bal; simp [buildRowsAux, ih]

/-- C6: the table has exactly `⌈horizonYears⌉` rows for a finite non-negative
horizon, and exactly 30 rows for the unreachable sentinel. -/
theorem builder_row_count (c rate pmt y : ℝ) (h : 0 ≤ y) :
    ((build_projection_table c rate pmt (.finite y)).length : ℤ) = ⌈y⌉ ∧
    (build_projection_table c rate pmt .unreachable).length = 30 := by
  constructor
  · rw [build_projection_table, buildRowsAux_length]
    simp [totalYears, Int.toNat_of_nonneg (Int.ceil_nonneg h)]
  · rw [build_projection_table, buildRowsAux_length]
    rfl

/-- Witness for C6: a zero horizon yields zero rows, the sentinel 30 rows. -/
theorem builder_row_count_witness :
    (0 : ℝ) ≤ 0 ∧
    ((build_projection_table 0 0 0 (.finite 0)).length : ℤ) = ⌈(0 : ℝ)⌉ ∧
    (build_projection_table 0 0 0 .unreachable).length = 30 :=
  ⟨le_rfl, (builder_row_count 0 0 0 0 le_rfl).1, (builder_row_count 0 0 0 0 le_rfl).2⟩

/-- Helper: the month loop preserves `balance - growth - contributions`. -/
lemma monthStep_iterate_invariant (mr mc : ℝ) (k : ℕ) : ∀ s : ℝ × ℝ × ℝ,
    ((monthStep mr mc)^[k] s).1 - ((monthStep mr mc)^[k] s).2.1 -
      ((monthStep mr mc)^[k] s).2.2 = s.1 - s.2.1 - s.2.2 := by
  induction k with
  | zero => intro s; rfl
  | succ k ih =>
    intro s
    rw [Function.iterate_succ_apply, ih]
    simp only [monthStep]
    ring

/-- Helper: subtracting the year's growth and contributions from the
post-loop balance recovers the pre-loop balance exactly. -/
lemma yearState_recovers_balance (mr mc bal : ℝ) :
    (yearState mr mc bal).1 - (yearState mr mc bal).2.1 -
      (yearState mr mc bal).2.2 = bal := by
  have h := monthStep_iterate_invariant mr mc 12 (bal, 0, 0)
  simpa [yearState] using h

/-- Variant of the year loop following the spec's defined behavior: the
starting balance of a row is the directly tracked pre-loop balance, rounded
to 2 decimals, instead of being derived by subtraction. -/
noncomputable def buildRowsDirect (monthly_rate monthly_contribution : ℝ) :
    ℕ → ℕ → ℝ → List ProjectionRow
  | 0, _, _ => []
  | n + 1, year, balance =>
    { year := year
      starting_balance := round2 balance
      contributions := round2 (yearState monthly_rate monthly_contribution balance).2.2
      growth := round2 (yearState monthly_rate monthly_contribution balance).2.1
      ending_balance := round2 (yearState monthly_rate monthly_contribution balance).1 } ::
    buildRowsDirect monthly_rate monthly_contribution n (year + 1)
      (yearState monthly_rate monthly_contribution balance).1

/-- Spec-side builder tracking the pre-loop balance directly. -/
noncomputable def build_projection_table_direct (current_value annual_rate
    monthly_contribution : ℝ) (years : TimeResult) : List ProjectionRow :=
  buildRowsDirect (annual_rate / 12) monthly_contribution (totalYears years) 1 current_value

/-- Helper: both year loops produce identical rows. -/
lemma buildRowsDirect_eq_aux (mr mc : ℝ) (n : ℕ) : ∀ year bal,
    buildRowsDirect mr mc n year bal = buildRowsAux mr mc n year bal := by
  induction n with
  | zero => intro year bal; rfl
  | succ n ih =>
    intro year bal
    simp [buildRowsDirect, buildRowsAux, ih, yearState_recovers_balance]

/-- C10: deriving the starting balance as `ending − growth − contributions`
is equivalent to tracking the pre-loop balance directly and rounding it; the
two builders produce equal tables. -/
theorem starting_balance_refinement (c rate pmt : ℝ) (y : TimeResult) :
    build_projection_table_direct c rate pmt y = build_projection_table c rate pmt y :=
  buildRowsDirect_eq_aux (rate / 12) pmt (totalYears y) 1 c

/-- Helper: four two-decimal roundings whose exact arguments cancel differ
by at most one hundredth. -/
lemma row_sum_bound (e g cc : ℝ) :
    |round2 (e - g - cc) + round2 cc + round2 g - round2 e| ≤ 0.01 := by
  have e1a : (round ((e - g - cc) * 100) : ℝ) ≤ (e - g - cc) * 100 + 1 / 2 :=
    round_le_add_half _
  have e1b : (e - g - cc) * 100 - 1 / 2 < round ((e - g - cc) * 100) :=
    sub_half_lt_round _
  have e2a : (round (cc * 100) : ℝ) ≤ cc * 100 + 1 / 2 := round_le_add_half _
  have e2b : cc * 100 - 1 / 2 < round (cc * 100) := sub_half_lt_round _
  have e3a : (round (g * 100) : ℝ) ≤ g * 100 + 1 / 2 := round_le_add_half _
  have e3b : g * 100 - 1 / 2 < round (g * 100) := sub_half_lt_round _
  have e4a : (round (e * 100) : ℝ) ≤ e * 100 + 1 / 2 := round_le_add_half _
  have e4b : e * 100 - 1 / 2 < round (e * 100) := sub_half_lt_round _
  have key : |(round ((e - g - cc) * 100) + round (cc * 100) + round (g * 100) -
      round (e * 100) : ℤ)| ≤ 1 := by
    have hr : |((round ((e - g - cc) * 100) + round (cc * 100) + round (g * 100) -
        round (e * 100) : ℤ) : ℝ)| < 2 := by
      rw [abs_lt]
      push_cast
      constructor <;> linarith
    have hz : |(round ((e - g - cc) * 100) + round (cc * 100) + round (g * 100) -
        round (e * 100) : ℤ)| < 2 := by
      have h2 : ((|round ((e - g - cc) * 100) + round (cc * 100) + round (g * 100) -
          round (e * 100)| : ℤ) : ℝ) < 2 := by
        rw [Int.cast_abs]
        exact hr
      exact_mod_cast h2
    omega
  have hsum : round2 (e - g - cc) + round2 cc + round2 g - round2 e =
      ((round ((e - g - cc) * 100) + round (cc * 100) + round (g * 100) -
        round (e * 100) : ℤ) : ℝ) / 100 := by
    unfold round2
    push_cast
    ring
  rw [hsum, abs_div, abs_of_nonneg (by norm_num : (0 : ℝ) ≤ (100 : ℝ))]
  rw [div_le_iff₀ (by norm_num : (0 : ℝ) < 100)]
  have : |((round ((e - g - cc) * 100) + round (cc * 100) + round (g * 100) -
      round (e * 100) : ℤ) : ℝ)| ≤ 1 := by
    rw [← Int.cast_abs]
    exact_mod_cast key
  linarith

/-- Helper: every row of the year loop satisfies the row-sum bound. -/
lemma buildRowsAux_row_sum (mr mc : ℝ) (n : ℕ) : ∀ year bal,
    ∀ row ∈ buildRowsAux mr mc n year bal,
      |row.starting_balance + row.contributions + row.growth -
        row.ending_balance| ≤ 0.01 := by
  induction n with
  | zero => intro year bal row h; simp [buildRowsAux] at h
  | succ n ih =>
    intro year bal row h
    rw [buildRowsAux] at h
    rcases List.mem_cons.mp h with h | h
    · subst h
      exact row_sum_bound (yearState mr mc bal).1 (yearState mr mc bal).2.1
        (yearState mr mc bal).2.2
    · exact ih (year + 1) (yearState mr mc bal).1 row h

/-- C2: in every table the builder produces, each row satisfies
`|starting_balance + contributions + growth - ending_balance| ≤ 0.01`,
whatever the rate, contribution and horizon. -/
theorem row_sum_invariant (c rate pmt : ℝ) (y : TimeResult) :
    ∀ row ∈ build_projection_table c rate pmt y,
      |row.starting_balance + row.contributions + row.growth -
        row.ending_balance| ≤ 0.01 := by
  intro row h
  exact buildRowsAux_row_sum (rate / 12) pmt (totalYears y) 1 c row h

/-- Witness for C2 on the single row of the table for one year of zero rate
and zero contribution from a zero balance. -/
theorem row_sum_invariant_witness :
    |round2 ((yearState (0 / 12) 0 0).1 - (yearState (0 / 12) 0 0).2.1 -
        (yearState (0 / 12) 0 0).2.2) + round2 (yearState (0 / 12) 0 0).2.2 +
      round2 (yearState (0 / 12) 0 0).2.1 - round2 (yearState (0 / 12) 0 0).1| ≤ 0.01 := by
  have ht : totalYears (.finite 1) = 1 := by
    simp [totalYears]
  exact row_sum_invariant 0 0 0 (.finite 1)
    { year := 1
      starting_balance := round2 ((yearState (0 / 12) 0 0).1 -
        (yearState (0 / 12) 0 0).2.1 - (yearState (0 / 12) 0 0).2.2)
      contributions := round2 (yearState (0 / 12) 0 0).2.2
      growth := round2 (yearState (0 / 12) 0 0).2.1
      ending_balance := round2 (yearState (0 / 12) 0 0).1 }
    (by rw [build_projection_table, ht, buildRowsAux]; exact List.mem_cons_self _ _)

/-- Helper: with non-negative rate and contribution the month loop keeps the
balance non-negative and never decreases it. -/
lemma monthStep_iterate_fst_le (mr mc : ℝ) (hmr : 0 ≤ mr) (hmc : 0 ≤ mc) (k : ℕ) :
    ∀ s : ℝ × ℝ × ℝ, 0 ≤ s.1 →
      0 ≤ ((monthStep mr mc)^[k] s).1 ∧ s.1 ≤ ((monthStep mr mc)^[k] s).1 := by
  induction k with
  | zero => intro s h; exact ⟨h, le_rfl⟩
  | succ k ih =>
    intro s h
    rw [Function.iterate_succ_apply]
    have hstep : s.1 ≤ (monthStep mr mc s).1 := by
      simp only [monthStep]
      nlinarith [mul_nonneg h hmr]
    have h0 : 0 ≤ (monthStep mr mc s).1 := le_trans h hstep
    obtain ⟨a, b⟩ := ih (monthStep mr mc s) h0
    exact ⟨a, le_trans hstep b⟩

/-- Helper: with a non-negative rate the post-month balance is monotone in
the pre-month balance. -/
lemma monthStep_iterate_fst_mono (mr mc : ℝ) (hmr : 0 ≤ mr) (k : ℕ) :
    ∀ s u : ℝ × ℝ × ℝ, s.1 ≤ u.1 →
      ((monthStep mr mc)^[k] s).1 ≤ ((monthStep mr mc)^[k] u).1 := by
  induction k with
  | zero => intro s u h; exact h
  | succ k ih =>
    intro s u h
    rw [Function.iterate_succ_apply, Function.iterate_succ_apply]
    apply ih
    simp only [monthStep]
    nlinarith [mul_le_mul_of_nonneg_right h hmr]

/-- Helper: a non-negative balance does not decrease over a simulated year. -/
lemma yearState_fst_le (mr mc bal : ℝ) (hmr : 0 ≤ mr) (hmc : 0 ≤ mc)
    (hb : 0 ≤ bal) : bal ≤ (yearState mr mc bal).1 :=
  (monthStep_iterate_fst_le mr mc hmr hmc 12 (bal, 0, 0) hb).2

/-- Helper: a non-negative balance stays non-negative over a simulated year. -/
lemma yearState_fst_nonneg (mr mc bal : ℝ) (hmr : 0 ≤ mr) (hmc : 0 ≤ mc)
    (hb : 0 ≤ bal) : 0 ≤ (yearState mr mc bal).1 :=
  (monthStep_iterate_fst_le mr mc hmr hmc 12 (bal, 0, 0) hb).1

/-- Helper: the year-end balance is monotone in the starting balance. -/
lemma yearState_fst_mono (mr mc b b' : ℝ) (hmr : 0 ≤ mr) (hb : b ≤ b') :
    (yearState mr mc b).1 ≤ (yearState mr mc b').1 :=
  monthStep_iterate_fst_mono mr mc hmr 12 (b, 0, 0) (b', 0, 0) hb

/-- Helper: rounding to two decimals is monotone. -/
lemma round2_mono {x y : ℝ} (h : x ≤ y) : round2 x ≤ round2 y := by
  unfold round2
  have hz : round (x * 100) ≤ round (y * 100) := by
    rw [round_eq, round_eq]
    exact Int.floor_mono (by linarith)
  have hc : ((round (x * 100) : ℤ) : ℝ) ≤ ((round (y * 100) : ℤ) : ℝ) :=
    Int.cast_le.mpr hz
  linarith

/-- Helper: the rows of the year loop have chainwise non-decreasing ending
balances, and the first row's ending balance dominates the rounded year-end
balance of the initial state. -/
lemma buildRowsAux_chain (mr mc : ℝ) (hmr : 0 ≤ mr) (hmc : 0 ≤ mc) (n : ℕ) :
    ∀ year bal, 0 ≤ bal →
      List.Chain' (fun a b => a.ending_balance ≤ b.ending_balance)
        (buildRowsAux mr mc n year bal) ∧
      ∀ row, (buildRowsAux mr mc n year bal).head? = some row →
        round2 (yearState mr mc bal).1 ≤ row.ending_balance := by
  induction n with
  | zero =>
    intro year bal _
    refine ⟨List.chain'_nil, ?_⟩
    intro row hr
    simp [buildRowsAux] at hr
  | succ n ih =>
    intro year bal hb
    have hb1 : 0 ≤ (yearState mr mc bal).1 := yearState_fst_nonneg mr mc bal hmr hmc hb
    obtain ⟨ihc, ihh⟩ := ih (year + 1) (yearState mr mc bal).1 hb1
    constructor
    · rw [buildRowsAux, List.chain'_cons']
      refine ⟨?_, ihc⟩
      intro v hv
      have h2 := ihh v hv
      have h3 : (yearState mr mc bal).1 ≤ (yearState mr mc (yearState mr mc bal).1).1 :=
        yearState_fst_le mr mc (yearState mr mc bal).1 hmr hmc hb1
      exact le_trans (round2_mono h3) h2
    · intro row hr
      rw [buildRowsAux] at hr
      simp only [List.head?_cons, Option.some.injEq] at hr
      rw [← hr]

/-- C8: for non-negative starting value, rate and contribution, consecutive
rows of the table have non-decreasing ending balances. -/
theorem monotone_balances (c rate pmt : ℝ) (y : TimeResult) (h1 : 0 ≤ c)
    (h2 : 0 ≤ rate) (h3 : 0 ≤ pmt) :
    List.Chain' (fun a b => a.ending_balance ≤ b.ending_balance)
      (build_projection_table c rate pmt y) := by
  have hmr : 0 ≤ rate / 12 := by positivity
  exact (buildRowsAux_chain (rate / 12) pmt hmr h3 (totalYears y) 1 c h1).1

/-- Witness for C8 on a two-year table with positive rate and contribution. -/
theorem monotone_balances_witness :
    (0 : ℝ) ≤ 100 ∧ (0 : ℝ) ≤ 0.12 ∧ (0 : ℝ) ≤ 10 ∧
    List.Chain' (fun a b => a.ending_balance ≤ b.ending_balance)
      (build_projection_table 100 0.12 10 (.finite 2)) :=
  ⟨by norm_num, by norm_num, by norm_num,
   monotone_balances 100 0.12 10 (.finite 2) (by norm_num) (by norm_num) (by norm_num)⟩

/-- Safety instrumentation of `calculate_years_to_target`: every operation
that raises in Python on a degenerate argument (division by zero, logarithm
of a non-positive number, division by a zero logarithm) is guarded and
returns `none` where Python would raise, following the code's evaluation
order. -/
noncomputable def calculate_years_to_target_checked (current_value target_value annual_rate
    monthly_contribution : ℝ) : Option TimeResult :=
  if current_value ≥ target_value then some (.finite 0)
  else if annual_rate ≤ 0 then
    if monthly_contribution ≤ 0 then some .unreachable
    else if monthly_contribution = 0 then none
    else some (.finite (round2 ((target_value - current_value) / monthly_contribution / 12)))
  else if monthly_contribution = 0 then
    if current_value ≤ 0 then some .unreachable
    else if current_value = 0 then none
    else if target_value / current_value ≤ 0 then none
    else if 1 + annual_rate / 12 ≤ 0 then none
    else if Real.log (1 + annual_rate / 12) = 0 then none
    else some (.finite (round2 (Real.log (target_value / current_value) /
      Real.log (1 + annual_rate / 12) / 12)))
  else if annual_rate / 12 = 0 then none
  else if current_value + monthly_contribution / (annual_rate / 12) ≤ 0 then some .unreachable
  else if current_value + monthly_contribution / (annual_rate / 12) = 0 then none
  else if (target_value + monthly_contribution / (annual_rate / 12)) /
      (current_value + monthly_contribution / (annual_rate / 12)) ≤ 0 then some .unreachable
  else if 1 + annual_rate / 12 ≤ 0 then none
  else if Real.log (1 + annual_rate / 12) = 0 then none
  else some (.finite (round2 (Real.log ((target_value + monthly_contribution / (annual_rate / 12)) /
    (current_value + monthly_contribution / (annual_rate / 12))) /
    Real.log (1 + annual_rate / 12) / 12)))

/-- C7: the solver never hits a raising operation: the guarded evaluator
reaches no `none` guard on any input, so every input yields a defined value
(a finite number or the unreachable sentinel). -/
theorem solver_never_raises (c t rate pmt : ℝ) :
    calculate_years_to_target_checked c t rate pmt =
      some (calculate_years_to_target c t rate pmt) := by
  unfold calculate_years_to_target_checked calculate_years_to_target
  by_cases h1 : c ≥ t
  · rw [if_pos h1, if_pos h1]
  · rw [if_neg h1, if_neg h1]
    have hct : c < t := not_le.mp h1
    by_cases h2 : rate ≤ 0
    · rw [if_pos h2, if_pos h2]
      by_cases h3 : pmt ≤ 0
      · rw [if_pos h3, if_pos h3]
      · rw [if_neg h3, if_neg h3,
          if_neg (show ¬pmt = 0 from fun he => h3 (le_of_eq he))]
    · rw [if_neg h2, if_neg h2]
      have hrate : 0 < rate := not_le.mp h2
      have hr12 : (0 : ℝ) < rate / 12 := by positivity
      have hr1 : (1 : ℝ) < 1 + rate / 12 := by linarith
      have hlog : ¬Real.log (1 + rate / 12) = 0 := ne_of_gt (Real.log_pos hr1)
      have hr1n : ¬(1 + rate / 12 ≤ 0) := not_le.mpr (by linarith)
      by_cases h3 : pmt = 0
      · rw [if_pos h3, if_pos h3]
        by_cases h4 : c ≤ 0
        · rw [if_pos h4, if_pos h4]
        · have hc : 0 < c := not_le.mp h4
          have ht : 0 < t := lt_trans hc hct
          rw [if_neg h4, if_neg h4, if_neg hc.ne',
            if_neg (not_le.mpr (div_pos ht hc)), if_neg hr1n, if_neg hlog]
      · rw [if_neg h3, if_neg h3, if_neg hr12.ne']
        by_cases h4 : c + pmt / (rate / 12) ≤ 0
        · rw [if_pos h4, if_pos h4]
        · have hd : 0 < c + pmt / (rate / 12) := not_le.mp h4
          rw [if_neg h4, if_neg h4, if_neg hd.ne']
          by_cases h5 : (t + pmt / (rate / 12)) / (c + pmt / (rate / 12)) ≤ 0
          · rw [if_pos h5, if_pos h5]
          · rw [if_neg h5, if_neg h5, if_neg hr1n, if_neg hlog]

/-- C9 counterexample: at annual rate 12 the solver returns the two-decimal
rounding 0.08, not the exact value `ln 2 / ln(1 + 12/12) / 12 = 1/12`; and
the table built from the solver's result has a single row, so no
second-to-last row exists for the round-trip property. -/
theorem roundtrip_counterexample :
    calculate_years_to_target 1000 2000 12 0 ≠
      .finite (Real.log 2 / Real.log (1 + 12 / 12) / 12) ∧
    (build_projection_table 1000 12 0
      (calculate_years_to_target 1000 2000 12 0)).length = 1 := by
  have h := calc_compound_principal 1000 2000 12 (by norm_num) (by norm_num) (by norm_num)
  have h2 : (2000 : ℝ) / 1000 = 2 := by norm_num
  have h3 : (1 : ℝ) + 12 / 12 = 2 := by norm_num
  have hlog : Real.log 2 ≠ 0 := ne_of_gt (Real.log_pos one_lt_two)
  have h4 : Real.log 2 / Real.log 2 / 12 = 1 / 12 := by rw [div_self hlog]
  have hval : calculate_years_to_target 1000 2000 12 0 = .finite ((8 : ℝ) / 100) := by
    rw [h, h2, h3, h4, round2_eval (1 / 12) 8 (by norm_num) (by norm_num)]
    norm_num
  constructor
  · rw [hval, h3, h4]
    intro heq
    injection heq with h5
    norm_num at h5
  · rw [hval, build_projection_table, buildRowsAux_length]
    have hc : ⌈(8 : ℝ) / 100⌉ = 1 := by
      rw [Int.ceil_eq_iff]
      constructor <;> norm_num
    simp [totalYears, hc]

/-- C9 amended: for every positive annual rate, `solve(1000, 2000, r, 0)`
equals `ln 2 / ln(1 + r/12) / 12` rounded to two decimal places. -/
theorem roundtrip_amended (r : ℝ) (h : 0 < r) :
    calculate_years_to_target 1000 2000 r 0 =
      .finite (round2 (Real.log 2 / Real.log (1 + r / 12) / 12)) := by
  have hb := calc_compound_principal 1000 2000 r (by norm_num) h (by norm_num)
  rw [hb]
  norm_num

/-- Witness for the amended C9 at rate 0.08. -/
theorem roundtrip_amended_witness :
    (0 : ℝ) < 0.08 ∧
    calculate_years_to_target 1000 2000 0.08 0 =
      .finite (round2 (Real.log 2 / Real.log (1 + 0.08 / 12) / 12)) :=
  ⟨by norm_num, roundtrip_amended 0.08 (by norm_num)⟩

end PortfolioGrowth
